import Mathlib

/-!
# Verification of the Vypertron-Snake core simulation

Shallow embedding of the grid-simulation core of the Vypertron-Snake
repository (Rust, Bevy): the movement engine (`src/systems/snake.rs`), the
collision resolver (`src/systems/collision.rs`), the scoring utilities
(`src/utils/mod.rs`), the state machine (`src/states/mod.rs`) and the input
buffering layer (`src/systems/input.rs`).

Grid coordinates are `i32` in the source and are modelled as `Int`.
Timers and speeds are `f32` in the source; they are modelled as `ℚ`.  The
properties verified here concern only the control structure of the timer
code (which constant is assigned on reset, which branch is taken), never
rounding behaviour, so the rational model is faithful for them.  `Vec2`
grid positions in the source always hold exact small integers (|x| < 2^24),
for which `f32` arithmetic on the operations used (add of unit vectors,
compare, cast) is exact.
-/

namespace Vypertron

/-- Grid coordinate, `components/mod.rs` `GridPosition { x: i32, y: i32 }`. -/
structure GridPosition where
  x : Int
  y : Int
deriving DecidableEq, Repr

/-- `components/mod.rs` `enum FoodType`. -/
inductive FoodType
  | Normal
  | Bonus
  | Speed
  | Golden
deriving DecidableEq, Repr

/-- `components/mod.rs` `enum WallType`. -/
inductive WallType
  | Boundary
  | Obstacle
  | Breakable
  | Moving
deriving DecidableEq, Repr

/-- `resources/mod.rs` `enum CharacterAbility`. -/
inductive CharacterAbility
  | NoAbility
  | SpeedBoost
  | WallBreaker
  | ScoreBooster
deriving DecidableEq, Repr

/-- `systems/snake.rs` `enum DeathCause` (the `Other(String)` payload is not
needed by any claim and is modelled without its string). -/
inductive DeathCause
  | WallCollision
  | SelfCollision
  | TimeLimit
  | Other
deriving DecidableEq, Repr

/-- Special ability of each playable character, from the `characters` array in
`resources/mod.rs` (ids 1–4); `_ => NoAbility` matches the `_ => 1.0`-style
defaults used elsewhere for out-of-range ids. -/
def character_ability (character_id : Nat) : CharacterAbility :=
  match character_id with
  | 1 => CharacterAbility.NoAbility
  | 2 => CharacterAbility.SpeedBoost
  | 3 => CharacterAbility.WallBreaker
  | 4 => CharacterAbility.ScoreBooster
  | _ => CharacterAbility.NoAbility

/-- The creature state carried by the Bevy `Snake` component together with
its `GridPosition` (head cell) and the ordered list of body-segment grid
positions.  `segments` lists the cells of the `SnakeSegment` entities with
`segment_index = 1, 2, …` in index order — exactly the list that
`collect_segment_positions` in `systems/snake.rs` produces (it sorts the
query results by `segment_index`; the head entity is excluded by the
`Without<Snake>` filter).  `wrap_active` records whether the active level
declares `SpecialMechanic::Teleporters`, and `grid_w`/`grid_h` the level's
grid size. -/
structure SnakeState where
  direction : Int × Int
  speed : ℚ
  move_timer : ℚ
  length : Nat
  is_alive : Bool
  character_id : Nat
  head : GridPosition
  segments : List GridPosition
  wrap_active : Bool
  grid_w : Nat
  grid_h : Nat
deriving DecidableEq, Repr

/-- The per-segment loop body of `update_snake_segments`
(`systems/snake.rs:271-308`): segment `i` is assigned
`position_chain[i]` when `i < position_chain.len() && i < snake_length`,
and is left untouched otherwise.  `i` starts at 1 for the first element of
the (index-ordered) body-segment list. -/
def updateSegmentsAux (chain : List GridPosition) (len : Nat) :
    Nat → List GridPosition → List GridPosition
  | _, [] => []
  | i, p :: rest =>
      (if i < chain.length ∧ i < len then chain.getD i p else p)
        :: updateSegmentsAux chain len (i + 1) rest

/-- `update_snake_segments` (`systems/snake.rs:271-308`): builds
`position_chain = vec![head_position]` extended with the snapshot of the
previous body-segment positions, then reassigns every body segment from the
chain at its own `segment_index`.  `head_position` is the argument the
caller passes (`move_snake` passes the *new* head position `new_grid_pos`). -/
def update_snake_segments (prev : List GridPosition) (head_position : GridPosition)
    (snake_length : Nat) : List GridPosition :=
  updateSegmentsAux (head_position :: prev) snake_length 1 prev

/-- `apply_character_movement_modifiers` (`systems/snake.rs:311-332`):
`SpeedBoost` multiplies the speed by 1.2, every other ability leaves it
unchanged. -/
def apply_character_movement_modifiers (character_id : Nat) (speed : ℚ) : ℚ :=
  match character_ability character_id with
  | CharacterAbility.SpeedBoost => speed * (6/5)
  | _ => speed

/-- `handle_teleporter_wrapping` (`systems/snake.rs:335-353`): an
out-of-bounds coordinate is replaced by the opposite edge
(`x < 0 → width-1`, `x ≥ width → 0`, same for `y`). -/
def handle_teleporter_wrapping (p : GridPosition) (grid_w grid_h : Nat) :
    GridPosition :=
  let x := if p.x < 0 then (grid_w : Int) - 1
           else if p.x ≥ (grid_w : Int) then 0 else p.x
  let y := if p.y < 0 then (grid_h : Int) - 1
           else if p.y ≥ (grid_h : Int) then 0 else p.y
  ⟨x, y⟩

/-- One frame of `move_snake` (`systems/snake.rs:151-243`) for one creature:
dead creatures are skipped (`continue`) before the timer is touched; the
timer advances by `Δt`; when it reaches `1.0 / speed` it is set to `0.0`,
the head advances by the direction vector, the character speed modifier is
applied, the body is reassigned by `update_snake_segments` from the
pre-move snapshot and the *new* head position, and finally the head is
wrapped iff the level declares the Teleporters mechanic. -/
def move_snake (dt : ℚ) (st : SnakeState) : SnakeState :=
  if !st.is_alive then st
  else
    let t := st.move_timer + dt
    let move_interval := 1 / st.speed
    if t ≥ move_interval then
      let previous_positions := st.segments
      let new_grid_pos : GridPosition :=
        ⟨st.head.x + st.direction.1, st.head.y + st.direction.2⟩
      let speed' := apply_character_movement_modifiers st.character_id st.speed
      let segments' := update_snake_segments previous_positions new_grid_pos st.length
      let head' := if st.wrap_active then
          handle_teleporter_wrapping new_grid_pos st.grid_w st.grid_h
        else new_grid_pos
      { st with move_timer := 0, speed := speed', head := head',
                segments := segments' }
    else
      { st with move_timer := t }

/-- Invariant behind the segment-freeze: when the assignment chain agrees
with the remaining segment list from position `i` on, every segment is
reassigned its own old position. -/
theorem updateSegmentsAux_eq_self (len : Nat) :
    ∀ (l : List GridPosition) (i : Nat) (chain : List GridPosition),
      chain.drop i = l → updateSegmentsAux chain len i l = l
  | [], _, _, _ => rfl
  | p :: rest, i, chain, h => by
      have hget : chain[i]? = some p := by
        have h0 := List.getElem?_drop chain i 0
        rw [h] at h0
        simpa using h0.symm
      have hgetD : chain.getD i p = p := by
        simp [List.getD_eq_getElem?_getD, hget]
      have hdrop : chain.drop (i + 1) = rest := by
        have h1 : chain.drop (i + 1) = (chain.drop i).drop 1 := by
          rw [List.drop_drop, Nat.add_comm]
        rw [h1, h]
        rfl
      simp only [updateSegmentsAux,
        updateSegmentsAux_eq_self len rest (i + 1) chain hdrop]
      rw [show chain.getD i p = chain[i]?.getD p from List.getD_eq_getElem?_getD chain i p] at hgetD
      simp [hgetD]

/-- `update_snake_segments` returns the previous segment positions
unchanged, whatever head position and length it is given: with
`position_chain = head :: prev`, segment `i` reads `position_chain[i]`,
which is `prev[i-1]` — its own pre-tick position. -/
theorem update_snake_segments_frozen (prev : List GridPosition)
    (head_position : GridPosition) (snake_length : Nat) :
    update_snake_segments prev head_position snake_length = prev := by
  unfold update_snake_segments
  exact updateSegmentsAux_eq_self snake_length prev 1 (head_position :: prev) rfl

/-- A food entity as seen by the collision system: its `GridPosition` and
its `Food` component's `food_type`. -/
structure FoodEnt where
  pos : GridPosition
  food_type : FoodType
deriving DecidableEq, Repr

/-- A wall entity as seen by the collision system: its `GridPosition` and
its `Wall` component's `wall_type`. -/
structure WallEnt where
  pos : GridPosition
  wall_type : WallType
deriving DecidableEq, Repr

/-- `ScoreUtils::calculate_food_score` (`utils/mod.rs:400-410`): base score
10/25/15/100 per food type, multiplied by the level. -/
def calculate_food_score (food_type : FoodType) (level : Nat) : Nat :=
  let base_score :=
    match food_type with
    | FoodType.Normal => 10
    | FoodType.Bonus => 25
    | FoodType.Speed => 15
    | FoodType.Golden => 100
  base_score * level

/-- `ScoreUtils::get_character_multiplier` (`utils/mod.rs:447-455`) returns
an `f32` in {1.0, 0.9, 1.1, 1.5}; modelled as ten times the multiplier so
that everything stays in `ℕ`. -/
def character_multiplier_times10 (character_id : Nat) : Nat :=
  match character_id with
  | 1 => 10
  | 2 => 9
  | 3 => 11
  | 4 => 15
  | _ => 10

/-- `let final_score = (base_score as f32 * character_multiplier) as u32`
(`systems/collision.rs:100`).  The `as u32` cast truncates toward zero, so
the awarded score is `⌊base_score · multiplier⌋`.  For every product
arising here (base score ≤ 1000·level with in-range levels), the `f32`
multiplication is close enough to the exact product that rounding to
nearest lands on `base·m` exactly when that is representable (the bases
are multiples of 5 and the multipliers tenths, so the true product is
`k` or `k + 1/2`, both representable), hence truncation yields the exact
floor computed here with natural division. -/
def final_score (food_type : FoodType) (level character_id : Nat) : Nat :=
  calculate_food_score food_type level * character_multiplier_times10 character_id / 10

/-- Growth amount per food type from the `match food.food_type` in
`check_food_collision` (`systems/collision.rs:107-112`). -/
def growth_amount (food_type : FoodType) : Nat :=
  match food_type with
  | FoodType.Normal => 1
  | FoodType.Bonus => 2
  | FoodType.Speed => 1
  | FoodType.Golden => 3

/-- Result of one run of `check_food_collision` for one creature: the food
entities still alive afterwards, the `SnakeGrowthEvent`s sent
(`growth_amount`, `food_type`), and the score added to `ScoreResource`. -/
structure FoodCheckResult where
  foods : List FoodEnt
  growth_events : List (Nat × FoodType)
  score_added : Nat
deriving DecidableEq, Repr

/-- Inner food loop of `check_food_collision` (`systems/collision.rs:91-156`):
scan the foods in order; at the first one whose cell equals the head cell,
add `final_score` to the score, send one growth event, despawn that food
and `break`. -/
def foodLoop (head : GridPosition) (level character_id : Nat) :
    List FoodEnt → FoodCheckResult
  | [] => ⟨[], [], 0⟩
  | f :: rest =>
      if f.pos = head then
        ⟨rest, [(growth_amount f.food_type, f.food_type)],
          final_score f.food_type level character_id⟩
      else
        let r := foodLoop head level character_id rest
        ⟨f :: r.foods, r.growth_events, r.score_added⟩

/-- `check_food_collision` (`systems/collision.rs:75-158`) for one creature:
dead creatures are skipped before any food is examined. -/
def check_food_collision (is_alive : Bool) (head : GridPosition)
    (level character_id : Nat) (foods : List FoodEnt) : FoodCheckResult :=
  if !is_alive then ⟨foods, [], 0⟩
  else foodLoop head level character_id foods

/-- Result of one run of `check_wall_collision` for one creature: the wall
entities present afterwards and the `SnakeDeathEvent` causes sent. -/
structure WallCheckResult where
  walls : List WallEnt
  deaths : List DeathCause
deriving DecidableEq, Repr

/-- Inner wall loop of `check_wall_collision`
(`systems/collision.rs:214-281`): at a wall whose cell equals the head
cell, a `WallBreaker` character on a `Breakable` wall `continue`s — the
`despawn_recursive` call for the wall is commented out in the source, so
the wall entity stays; an invincible creature on a non-`Boundary` wall
also `continue`s; otherwise one `DeathCause::WallCollision` death event is
sent and the system `return`s. -/
def wallLoop (head : GridPosition) (ability : CharacterAbility)
    (has_invincibility : Bool) : List WallEnt → WallCheckResult
  | [] => ⟨[], []⟩
  | w :: rest =>
      if w.pos = head then
        let can_break_wall :=
          ability = CharacterAbility.WallBreaker ∧ w.wall_type = WallType.Breakable
        if can_break_wall then
          let r := wallLoop head ability has_invincibility rest
          ⟨w :: r.walls, r.deaths⟩
        else if has_invincibility ∧ w.wall_type ≠ WallType.Boundary then
          let r := wallLoop head ability has_invincibility rest
          ⟨w :: r.walls, r.deaths⟩
        else
          ⟨w :: rest, [DeathCause.WallCollision]⟩
      else
        let r := wallLoop head ability has_invincibility rest
        ⟨w :: r.walls, r.deaths⟩

/-- `check_wall_collision` (`systems/collision.rs:192-284`) for one
creature: dead creatures are skipped before any wall is examined. -/
def check_wall_collision (is_alive : Bool) (head : GridPosition)
    (ability : CharacterAbility) (has_invincibility : Bool)
    (walls : List WallEnt) : WallCheckResult :=
  if !is_alive then ⟨walls, []⟩
  else wallLoop head ability has_invincibility walls

/-- Inner segment loop of `check_self_collision`
(`systems/collision.rs:305-344`): segments with `segment_index <= 2` are
skipped; at the first remaining segment whose cell equals the head cell a
`SnakeDeathEvent` with `DeathCause::SelfCollision` is sent and the system
returns.  The result is the `segment_index` reported in the
`SelfCollisionEvent`, or `none` when no collision fires. -/
def selfLoop (head : GridPosition) : List (Nat × GridPosition) → Option Nat
  | [] => none
  | (i, p) :: rest =>
      if i ≤ 2 then selfLoop head rest
      else if p = head then some i
      else selfLoop head rest

/-- `check_self_collision` (`systems/collision.rs:291-347`) for one
creature; dead creatures are skipped.  The segment list pairs each
`SnakeSegment.segment_index` with its grid cell. -/
def check_self_collision (is_alive : Bool) (head : GridPosition)
    (segments : List (Nat × GridPosition)) : Option Nat :=
  if !is_alive then none
  else selfLoop head segments

/-- Death events sent by `check_self_collision`: one
`DeathCause::SelfCollision` exactly when the loop finds a hit. -/
def self_collision_deaths (is_alive : Bool) (head : GridPosition)
    (segments : List (Nat × GridPosition)) : List DeathCause :=
  match check_self_collision is_alive head segments with
  | some _ => [DeathCause.SelfCollision]
  | none => []

/-- Whether the head cell is outside the grid
(`systems/collision.rs:456-457`). -/
def out_of_bounds (p : GridPosition) (grid_w grid_h : Nat) : Bool :=
  p.x < 0 || p.x ≥ (grid_w : Int) || p.y < 0 || p.y ≥ (grid_h : Int)

/-- `check_boundary_collision` (`systems/collision.rs:434-483`) for one
creature: dead creatures are skipped; when the level declares
`SpecialMechanic::Teleporters` the check is skipped entirely (`continue`);
otherwise an out-of-bounds head sends exactly one
`DeathCause::WallCollision` death event. -/
def check_boundary_collision (is_alive : Bool) (head : GridPosition)
    (grid_w grid_h : Nat) (wrap_active : Bool) : List DeathCause :=
  if !is_alive then []
  else if wrap_active then []
  else if out_of_bounds head grid_w grid_h then [DeathCause.WallCollision]
  else []

/-- The data `grow_snake` (`systems/snake.rs:382-430`) works on: the
`Snake.length` field and the body `SnakeSegment` entities (the
`Without<Snake>` query), each as `(segment_index, grid_position)`.  The
head entity carries a further `SnakeSegment` with index 0, so the total
segment count of the creature is `1 + body.length`. -/
structure SnakeChain where
  length : Nat
  body : List (Nat × GridPosition)
deriving DecidableEq, Repr

/-- `find_last_segment_position` (`systems/snake.rs:433-448`): fold over
the body segments keeping the position of the highest `segment_index`
below `snake_length`, starting from `max_index = 0`, `last_pos = ZERO`. -/
def find_last_segment_position (body : List (Nat × GridPosition))
    (snake_length : Nat) : GridPosition :=
  (body.foldl
    (fun acc seg =>
      if acc.1 ≤ seg.1 ∧ seg.1 < snake_length then (seg.1, seg.2) else acc)
    (0, (⟨0, 0⟩ : GridPosition))).2

/-- One `SnakeGrowthEvent` handled by `grow_snake`
(`systems/snake.rs:392-430`): the length grows by `growth_amount`, and for
each `i in old_length..new_length` one new segment with index `i` is
spawned at `last_segment_pos`. -/
def grow_snake (st : SnakeChain) (growth : Nat) : SnakeChain :=
  let old_length := st.length
  let new_length := old_length + growth
  let last_segment_pos := find_last_segment_position st.body old_length
  { length := new_length,
    body := st.body ++ (List.range' old_length growth).map
      (fun i => (i, last_segment_pos)) }

/-- 2^32: the `u32` fields of `GameProgression` wrap at this modulus. -/
def u32Mod : Nat := 4294967296

/-- `(level - 1) as usize` on a `u32` level: wrapping subtraction by one
(release-mode semantics; for `level ≥ 1` this is plain `level - 1`, for
`level = 0` it is `2^32 - 1`, which fails the `< 10` bound check).  Stated
by cases rather than with `% 2^32`, which agrees on every `u32`-range
input. -/
def wrapping_pred_u32 : Nat → Nat
  | 0 => u32Mod - 1
  | Nat.succ n => n

/-- `level + 1` on a `u32`, wrapping at `2^32` (agrees with
`(level + 1) % 2^32` on every `u32`-range input). -/
def succ_u32 (level : Nat) : Nat :=
  if level + 1 = u32Mod then 0 else level + 1

/-- `states/mod.rs` `enum StateTransitionEvent` (payloads kept only where
progression data reads them). -/
inductive StateTransitionEvent
  | ToHomeScreen
  | ToCharacterSelect
  | StartGame (character_id level : Nat)
  | PauseGame
  | ResumeGame
  | GameOver (final_score : Nat)
  | LevelComplete (score level : Nat)
  | StartCutscene
  | EndCutscene
  | ToSettings
  | FromSettings
  | ToCredits
  | RestartLevel
  | QuitToMenu
deriving DecidableEq, Repr

/-- The progression data of `states/mod.rs` `struct GameProgression`;
`level_scores` is the `[u32; 10]` array as a length-10 list. -/
structure GameProgression where
  current_level : Nat
  max_unlocked_level : Nat
  selected_character : Nat
  is_new_game : Bool
  total_score : Nat
  level_scores : List Nat
deriving DecidableEq, Repr

/-- `progression.level_scores[idx] = progression.level_scores[idx].max(s)`
guarded by `if level_index < 10` (`states/mod.rs:194-196, 205-208`). -/
def bump_slot (scores : List Nat) (idx s : Nat) : List Nat :=
  if idx < 10 then scores.set idx (max (scores.getD idx 0) s) else scores

/-- The progression mutations of `handle_state_transitions`
(`states/mod.rs:151-261`), one event at a time.  `GameOver` folds the
final score into the current level's slot via `max`; `LevelComplete` does
the same for its `level` argument and raises `max_unlocked_level` via
`max(level + 1)`; `StartGame` sets character/level/new-game flags;
`QuitToMenu` sets `is_new_game`; every other event leaves the progression
untouched (they only set Bevy `NextState` values, which are not
progression data). -/
def handle_progression (p : GameProgression) :
    StateTransitionEvent → GameProgression
  | StateTransitionEvent.StartGame character_id level =>
      { p with selected_character := character_id, current_level := level,
               is_new_game := decide (level = 1) }
  | StateTransitionEvent.GameOver final_score =>
      let level_index := wrapping_pred_u32 p.current_level
      let scores := bump_slot p.level_scores level_index final_score
      { p with level_scores := scores, total_score := scores.sum }
  | StateTransitionEvent.LevelComplete score level =>
      let level_index := wrapping_pred_u32 level
      let scores := bump_slot p.level_scores level_index score
      { p with level_scores := scores,
               max_unlocked_level := max p.max_unlocked_level (succ_u32 level),
               total_score := scores.sum }
  | StateTransitionEvent.QuitToMenu => { p with is_new_game := true }
  | _ => p

/-- `systems/input.rs` `struct InputValidation` (timers in `ℚ`). -/
structure InputValidation where
  last_direction : Option (Int × Int)
  last_input_time : ℚ
  min_input_interval : ℚ
  allow_rapid_input : Bool
deriving DecidableEq, Repr

/-- `systems/input.rs` `struct InputBuffer` (the cleanup timer plays no
role in the buffering-time claims and is omitted). -/
structure InputBuffer where
  direction_buffer : List (Int × Int)
  max_buffer_size : Nat
deriving DecidableEq, Repr

/-- `InputUtils::get_opposite_direction` (`utils/mod.rs:629-631`). -/
def get_opposite_direction (direction : Int × Int) : Int × Int :=
  (-direction.1, -direction.2)

/-- `InputUtils::is_valid_direction_change` (`utils/mod.rs:634-638`):
`(new - opposite).length() > 0.1`.  Directions here are the four cardinal
unit vectors of `arrow_keys_to_direction`, so the difference has integer
coordinates and its length is either 0 or at least 1; the float test is
exactly inequality with the opposite vector. -/
def is_valid_direction_change (current new : Int × Int) : Bool :=
  decide (new ≠ get_opposite_direction current)

/-- `add_direction_to_buffer` (`systems/input.rs:291-306`): drop the input
if it equals the last buffered entry (float distance `< 0.1` on unit
integer vectors is equality), else push it and trim the front when the
buffer exceeds `max_buffer_size`. -/
def add_direction_to_buffer (direction : Int × Int) (buffer : InputBuffer) :
    InputBuffer :=
  match buffer.direction_buffer.getLast? with
  | some last_direction =>
      if last_direction = direction then buffer
      else
        let buf := buffer.direction_buffer ++ [direction]
        { buffer with direction_buffer :=
            if buffer.max_buffer_size < buf.length then buf.drop 1 else buf }
  | none =>
      let buf := buffer.direction_buffer ++ [direction]
      { buffer with direction_buffer :=
          if buffer.max_buffer_size < buf.length then buf.drop 1 else buf }

/-- The direction-buffering path of `handle_gameplay_input`
(`systems/input.rs:239-280`) for one arriving direction intent: the timing
gate (`allow_rapid_input || last_input_time >= min_input_interval`), then
validation against `input_validation.last_direction` (`None` validates
as `true`), then buffering plus validation-state update on success. -/
def handle_gameplay_input (direction : Int × Int) (v : InputValidation)
    (b : InputBuffer) : InputValidation × InputBuffer :=
  if v.allow_rapid_input || decide (v.min_input_interval ≤ v.last_input_time) then
    let is_valid :=
      match v.last_direction with
      | some last_dir => is_valid_direction_change last_dir direction
      | none => true
    if is_valid then
      ({ v with last_direction := some direction, last_input_time := 0 },
        add_direction_to_buffer direction b)
    else
      (v, b)
  else
    (v, b)

/-- `consume_buffered_input` (`systems/input.rs:471-499`): if the buffer is
non-empty, its first entry becomes `snake.direction` and is removed. -/
def consume_buffered_input (b : InputBuffer) (snake_direction : Int × Int) :
    InputBuffer × (Int × Int) :=
  match b.direction_buffer with
  | [] => (b, snake_direction)
  | d :: rest => ({ b with direction_buffer := rest }, d)

/-!  ## Theorems for the claims  -/

/-- C1: the claim states that after a completed movement tick the new head
equals the old head plus the direction vector and every body segment `i`
takes the position segment `i−1` held before the tick (segment 1 taking
the head's pre-move position).  The head part holds, but
`update_snake_segments` builds `position_chain = new_head :: snapshot` and
assigns segment `i` the chain entry at its own index — which is the
snapshot of segment `i` itself — so every body segment is left in place on
every tick.  At the failing input (head `(10,10)` moving right, body at
`(9,10)`, `(8,10)`), a tick moves the head to `(11,10)` and leaves the
body at `[(9,10), (8,10)]` instead of the claimed `[(10,10), (9,10)]`. -/
theorem c1_segments_do_not_follow :
    (∀ (prev : List GridPosition) (head_position : GridPosition) (len : Nat),
      update_snake_segments prev head_position len = prev) ∧
    (move_snake 1
        { direction := (1, 0), speed := 1, move_timer := 0, length := 3,
          is_alive := true, character_id := 1, head := ⟨10, 10⟩,
          segments := [⟨9, 10⟩, ⟨8, 10⟩], wrap_active := false,
          grid_w := 20, grid_h := 20 }).head = ⟨11, 10⟩ ∧
    (move_snake 1
        { direction := (1, 0), speed := 1, move_timer := 0, length := 3,
          is_alive := true, character_id := 1, head := ⟨10, 10⟩,
          segments := [⟨9, 10⟩, ⟨8, 10⟩], wrap_active := false,
          grid_w := 20, grid_h := 20 }).segments = [⟨9, 10⟩, ⟨8, 10⟩] ∧
    [(⟨9, 10⟩ : GridPosition), ⟨8, 10⟩] ≠ [(⟨10, 10⟩ : GridPosition), ⟨9, 10⟩] := by
  refine ⟨update_snake_segments_frozen, ?_, ?_, by decide⟩ <;>
    · unfold move_snake
      norm_num [update_snake_segments_frozen]

/-- C2: the claim states that when the accumulator reaches the interval,
the accumulator is reset to its excess over the interval, preserving the
fractional carry.  The code (`snake.move_timer = 0.0;`,
`systems/snake.rs:178`, and likewise `self.move_timer = 0.0;` in
`snake.rs:46`) resets it to zero.  Concretely: speed 2 (interval 1/2),
accumulated timer 2/5, elapsed 1/5 — the step fires with excess 1/10, but
the resulting accumulator is 0, not 1/10. -/
theorem c2_timer_reset_counterexample :
    (move_snake (1/5)
        { direction := (1, 0), speed := 2, move_timer := 2/5, length := 3,
          is_alive := true, character_id := 1, head := ⟨10, 10⟩,
          segments := [⟨9, 10⟩, ⟨8, 10⟩], wrap_active := false,
          grid_w := 20, grid_h := 20 }).move_timer = 0 ∧
    ((2/5 : ℚ) + 1/5) - 1/2 = 1/10 ∧ (0 : ℚ) ≠ 1/10 := by
  refine ⟨?_, by norm_num, by norm_num⟩
  unfold move_snake
  norm_num

/-- C2 (amended): when the accumulator reaches the movement interval,
exactly one grid step is performed and the accumulator is reset to zero —
the excess over the interval is discarded, not carried. -/
theorem c2_one_step_and_reset_to_zero (dt : ℚ) (st : SnakeState)
    (halive : st.is_alive = true) (hwrap : st.wrap_active = false)
    (hfire : 1 / st.speed ≤ st.move_timer + dt) :
    (move_snake dt st).move_timer = 0 ∧
    (move_snake dt st).head =
      ⟨st.head.x + st.direction.1, st.head.y + st.direction.2⟩ := by
  unfold move_snake
  rw [halive, hwrap]
  simp only [Bool.not_true, Bool.false_eq_true, if_false, ge_iff_le,
    if_pos hfire]
  exact ⟨trivial, trivial⟩

/-- Witness for `c2_one_step_and_reset_to_zero` at a concrete state. -/
theorem c2_one_step_and_reset_to_zero_witness :
    (move_snake (1/5)
        { direction := (1, 0), speed := 2, move_timer := 2/5, length := 3,
          is_alive := true, character_id := 1, head := ⟨10, 10⟩,
          segments := [⟨9, 10⟩, ⟨8, 10⟩], wrap_active := false,
          grid_w := 20, grid_h := 20 }).move_timer = 0 ∧
    (move_snake (1/5)
        { direction := (1, 0), speed := 2, move_timer := 2/5, length := 3,
          is_alive := true, character_id := 1, head := ⟨10, 10⟩,
          segments := [⟨9, 10⟩, ⟨8, 10⟩], wrap_active := false,
          grid_w := 20, grid_h := 20 }).head = ⟨10 + 1, 10 + 0⟩ :=
  c2_one_step_and_reset_to_zero (1/5) _ rfl rfl (by norm_num)

/-- The wall-collision loop never removes a wall entity: the
`despawn_recursive` call in the wall-break branch is commented out in the
source, and no other branch despawns. -/
theorem wallLoop_preserves_walls (head : GridPosition)
    (ability : CharacterAbility) (inv : Bool) :
    ∀ walls : List WallEnt, (wallLoop head ability inv walls).walls = walls
  | [] => rfl
  | w :: rest => by
      have ih := wallLoop_preserves_walls head ability inv rest
      unfold wallLoop
      dsimp only
      split
      · split
        · simp [ih]
        · split
          · simp [ih]
          · rfl
      · simp [ih]

/-- C3: the claim states that a `WallBreaker` creature entering a
`Breakable` wall removes the wall and survives with no death event.  The
surviving/no-death part holds, but the removal does not: the
`despawn_recursive` call is commented out (`systems/collision.rs:226`), so
`check_wall_collision` never removes any wall; at the failing input
(a `Breakable` wall at the head cell of a `WallBreaker` character) the
wall survives the collision.  The invincibility pass-through and the
death branches behave as claimed. -/
theorem c3_breakable_wall_never_removed :
    (∀ (is_alive : Bool) (head : GridPosition) (ability : CharacterAbility)
      (inv : Bool) (walls : List WallEnt),
      (check_wall_collision is_alive head ability inv walls).walls = walls) ∧
    check_wall_collision true ⟨10, 10⟩ CharacterAbility.WallBreaker false
        [⟨⟨10, 10⟩, WallType.Breakable⟩] =
      ⟨[⟨⟨10, 10⟩, WallType.Breakable⟩], []⟩ ∧
    ([(⟨⟨10, 10⟩, WallType.Breakable⟩ : WallEnt)] : List WallEnt) ≠ [] := by
  refine ⟨?_, by decide, by decide⟩
  intro is_alive head ability inv walls
  unfold check_wall_collision
  split
  · rfl
  · exact wallLoop_preserves_walls head ability inv walls

/-- First-match characterisation of the food loop: foods before the first
match are kept, the matching food is removed, one growth event with the
type's growth amount is sent, and the truncated score is added. -/
theorem foodLoop_first_match (head : GridPosition) (level cid : Nat)
    (f : FoodEnt) (hf : f.pos = head) :
    ∀ (pre post : List FoodEnt), (∀ g ∈ pre, g.pos ≠ head) →
      foodLoop head level cid (pre ++ f :: post) =
        ⟨pre ++ post, [(growth_amount f.food_type, f.food_type)],
          final_score f.food_type level cid⟩
  | [], post, _ => by simp [foodLoop, hf]
  | g :: pre, post, hpre => by
      have hg : ¬ g.pos = head := hpre g (List.mem_cons_self g pre)
      have hrest : ∀ x ∈ pre, x.pos ≠ head :=
        fun x hx => hpre x (List.mem_cons_of_mem g hx)
      simp [foodLoop, hg, foodLoop_first_match head level cid f hf pre post hrest]

/-- C4: when the head cell equals an active food cell, that food (the
first match) is removed, a growth event of 1/2/1/3 for
Normal/Bonus/Speed/Golden is sent and only one food is consumed — as
claimed — but the awarded score is the *truncation*
`⌊base(type) · level · character_multiplier⌋` (the `as u32` cast in
`systems/collision.rs:100`), not always the exact product.  Amended form:
score `= ⌊base(type) × level × character_multiplier⌋`. -/
theorem c4_food_collision_floor_score (head : GridPosition)
    (level cid : Nat) (f : FoodEnt) (pre post : List FoodEnt)
    (hf : f.pos = head) (hpre : ∀ g ∈ pre, g.pos ≠ head) :
    check_food_collision true head level cid (pre ++ f :: post) =
      ⟨pre ++ post, [(growth_amount f.food_type, f.food_type)],
        final_score f.food_type level cid⟩ ∧
    (final_score f.food_type level cid : ℚ) =
      ⌊(calculate_food_score f.food_type level *
          character_multiplier_times10 cid : ℚ) / 10⌋₊ ∧
    growth_amount FoodType.Normal = 1 ∧ growth_amount FoodType.Speed = 1 ∧
    growth_amount FoodType.Bonus = 2 ∧ growth_amount FoodType.Golden = 3 := by
  refine ⟨?_, ?_, rfl, rfl, rfl, rfl⟩
  · unfold check_food_collision
    simp only [Bool.not_true, Bool.false_eq_true, if_false]
    exact foodLoop_first_match head level cid f hf pre post hpre
  · unfold final_score
    rw [show ((calculate_food_score f.food_type level : ℚ) *
          (character_multiplier_times10 cid : ℚ)) =
        ((calculate_food_score f.food_type level *
          character_multiplier_times10 cid : ℕ) : ℚ) by push_cast; ring,
      show ((10 : ℚ)) = ((10 : ℕ) : ℚ) by norm_num,
      Nat.floor_div_nat, Nat.floor_natCast]

/-- Witness for `c4_food_collision_floor_score`: Scenario A, a Normal food
at the head cell `(11,10)`, level 1, character 1 — score 10. -/
theorem c4_food_collision_floor_score_witness :
    check_food_collision true ⟨11, 10⟩ 1 1 [⟨⟨11, 10⟩, FoodType.Normal⟩] =
      ⟨[], [(growth_amount FoodType.Normal, FoodType.Normal)],
        final_score FoodType.Normal 1 1⟩ ∧
    final_score FoodType.Normal 1 1 = 10 :=
  ⟨(c4_food_collision_floor_score ⟨11, 10⟩ 1 1 ⟨⟨11, 10⟩, FoodType.Normal⟩
      [] [] rfl (by simp)).1, by decide⟩

/-- C4 counterexample to the claim as stated: a Speed food (base 15) at
level 1 eaten by character 2 (multiplier 0.9) awards score 13, while the
claimed exact product `base × level × multiplier` is 13.5. -/
theorem c4_exact_product_counterexample :
    (check_food_collision true ⟨11, 10⟩ 1 2
        [⟨⟨11, 10⟩, FoodType.Speed⟩]).score_added = 13 ∧
    ((13 : ℚ) ≠ (15 : ℚ) * 1 * (9 / 10)) := by
  constructor
  · decide
  · norm_num

/-- The self-collision loop fires exactly on a segment with index ≥ 3 at
the head cell. -/
theorem selfLoop_isSome_iff (head : GridPosition) :
    ∀ segs : List (Nat × GridPosition),
      (selfLoop head segs).isSome = true ↔ ∃ s ∈ segs, 3 ≤ s.1 ∧ s.2 = head
  | [] => by simp [selfLoop]
  | (i, p) :: rest => by
      have ih := selfLoop_isSome_iff head rest
      by_cases h2 : i ≤ 2
      · have h3 : ¬ 3 ≤ i := by omega
        simp [selfLoop, h2, ih, h3]
      · by_cases hp : p = head
        · simp only [selfLoop, if_neg h2, if_pos hp, Option.isSome_some, true_iff]
          exact ⟨(i, p), List.mem_cons_self _ _, by omega, hp⟩
        · simp [selfLoop, h2, hp, ih]

/-- Any index reported by the self-collision loop is at least 3. -/
theorem selfLoop_some_ge (head : GridPosition) :
    ∀ (segs : List (Nat × GridPosition)) (i : Nat),
      selfLoop head segs = some i → 3 ≤ i
  | [], i, h => by simp [selfLoop] at h
  | (j, p) :: rest, i, h => by
      by_cases h2 : j ≤ 2
      · exact selfLoop_some_ge head rest i (by simpa [selfLoop, h2] using h)
      · by_cases hp : p = head
        · simp only [selfLoop, if_neg h2, if_pos hp, Option.some.injEq] at h
          omega
        · exact selfLoop_some_ge head rest i (by simpa [selfLoop, h2, hp] using h)

/-- C5: a self-collision death with cause `SelfCollision` fires exactly
when some body segment with chain index ≥ 3 occupies the head cell;
segments with indices 1 and 2 are skipped by the
`segment.segment_index <= 2` guard and can never trigger death. -/
theorem c5_self_collision_index_three (head : GridPosition)
    (segs : List (Nat × GridPosition)) :
    ((check_self_collision true head segs).isSome = true ↔
      ∃ s ∈ segs, 3 ≤ s.1 ∧ s.2 = head) ∧
    (∀ i, check_self_collision true head segs = some i → 3 ≤ i) ∧
    (self_collision_deaths true head segs =
      if (check_self_collision true head segs).isSome then
        [DeathCause.SelfCollision] else []) := by
  refine ⟨?_, ?_, ?_⟩
  · simpa [check_self_collision] using selfLoop_isSome_iff head segs
  · intro i h
    exact selfLoop_some_ge head segs i (by simpa [check_self_collision] using h)
  · unfold self_collision_deaths
    cases h : check_self_collision true head segs <;> simp [h]

/-- Witness for `c5_self_collision_index_three`: Scenario C — the head at
the cell of the index-5 segment dies of `SelfCollision`; a head at the
cells of only the index-1 and index-2 segments does not. -/
theorem c5_self_collision_index_three_witness :
    (check_self_collision true ⟨10, 10⟩
        [(1, ⟨10, 10⟩), (2, ⟨10, 10⟩), (5, ⟨10, 10⟩)]).isSome = true ∧
    self_collision_deaths true ⟨10, 10⟩
        [(1, ⟨10, 10⟩), (2, ⟨10, 10⟩), (5, ⟨10, 10⟩)] =
      [DeathCause.SelfCollision] ∧
    (check_self_collision true ⟨10, 10⟩
        [(1, ⟨10, 10⟩), (2, ⟨10, 10⟩)]).isSome ≠ true := by
  have h := c5_self_collision_index_three ⟨10, 10⟩
    [(1, ⟨10, 10⟩), (2, ⟨10, 10⟩), (5, ⟨10, 10⟩)]
  have h5 : (check_self_collision true ⟨10, 10⟩
      [(1, ⟨10, 10⟩), (2, ⟨10, 10⟩), (5, ⟨10, 10⟩)]).isSome = true :=
    h.1.mpr ⟨(5, ⟨10, 10⟩), by simp, by omega, rfl⟩
  have h12 := (c5_self_collision_index_three ⟨10, 10⟩
    [(1, ⟨10, 10⟩), (2, ⟨10, 10⟩)]).1
  refine ⟨h5, ?_, ?_⟩
  · rw [h.2.2, if_pos h5]
  · intro hcontra
    obtain ⟨s, hs, h3, -⟩ := h12.mp hcontra
    simp at hs
    rcases hs with h' | h' <;> subst h' <;> exact absurd h3 (by decide)

/-- The single-coordinate wrap of `handle_teleporter_wrapping` agrees with
modulo arithmetic on any coordinate at most one step out of bounds. -/
theorem wrap_coord_eq_emod (a : Int) (w : Nat) (h0 : 0 < w)
    (hlo : -1 ≤ a) (hhi : a ≤ (w : Int)) :
    (if a < 0 then (w : Int) - 1 else if a ≥ (w : Int) then 0 else a) =
      a % (w : Int) := by
  by_cases hneg : a < 0
  · have ha : a = -1 := by omega
    subst ha
    rw [if_pos hneg,
      show ((-1 : Int)) = ((w : Int) - 1) + (w : Int) * (-1) by ring,
      Int.add_mul_emod_self_left, Int.emod_eq_of_lt (by omega) (by omega)]
  · by_cases hge : a ≥ (w : Int)
    · have ha : a = (w : Int) := by omega
      subst ha
      rw [if_neg hneg, if_pos hge, Int.emod_self]
    · rw [if_neg hneg, if_neg hge, Int.emod_eq_of_lt (by omega) (by omega)]

/-- C6: after a one-cell step from an in-bounds head, (a) with the wrap
mechanic active the boundary check emits no death and the wrapped head is
the stepped coordinate taken modulo the grid dimensions, back in bounds;
(b) with wrap inactive an out-of-bounds stepped head emits exactly one
death with cause `WallCollision`. -/
theorem c6_boundary_death_or_wrap (head : GridPosition) (dir : Int × Int)
    (w h : Nat) (hw : 0 < w) (hh : 0 < h)
    (hx0 : 0 ≤ head.x) (hx1 : head.x < (w : Int))
    (hy0 : 0 ≤ head.y) (hy1 : head.y < (h : Int))
    (hdir : dir = (1, 0) ∨ dir = (-1, 0) ∨ dir = (0, 1) ∨ dir = (0, -1)) :
    check_boundary_collision true ⟨head.x + dir.1, head.y + dir.2⟩ w h true = [] ∧
    handle_teleporter_wrapping ⟨head.x + dir.1, head.y + dir.2⟩ w h =
      ⟨(head.x + dir.1) % (w : Int), (head.y + dir.2) % (h : Int)⟩ ∧
    out_of_bounds
      (handle_teleporter_wrapping ⟨head.x + dir.1, head.y + dir.2⟩ w h) w h
        = false ∧
    (out_of_bounds ⟨head.x + dir.1, head.y + dir.2⟩ w h = true →
      check_boundary_collision true ⟨head.x + dir.1, head.y + dir.2⟩ w h false =
        [DeathCause.WallCollision]) := by
  have hd1 : -1 ≤ dir.1 ∧ dir.1 ≤ 1 ∧ -1 ≤ dir.2 ∧ dir.2 ≤ 1 := by
    rcases hdir with h' | h' | h' | h' <;> subst h' <;> norm_num
  have hwrap : handle_teleporter_wrapping ⟨head.x + dir.1, head.y + dir.2⟩ w h =
      ⟨(head.x + dir.1) % (w : Int), (head.y + dir.2) % (h : Int)⟩ := by
    unfold handle_teleporter_wrapping
    dsimp only
    rw [wrap_coord_eq_emod (head.x + dir.1) w hw (by omega) (by omega),
      wrap_coord_eq_emod (head.y + dir.2) h hh (by omega) (by omega)]
  refine ⟨by simp [check_boundary_collision], hwrap, ?_, ?_⟩
  · rw [hwrap]
    have hxm0 : 0 ≤ (head.x + dir.1) % (w : Int) :=
      Int.emod_nonneg _ (by exact_mod_cast hw.ne')
    have hxm1 : (head.x + dir.1) % (w : Int) < (w : Int) :=
      Int.emod_lt_of_pos _ (by exact_mod_cast hw)
    have hym0 : 0 ≤ (head.y + dir.2) % (h : Int) :=
      Int.emod_nonneg _ (by exact_mod_cast hh.ne')
    have hym1 : (head.y + dir.2) % (h : Int) < (h : Int) :=
      Int.emod_lt_of_pos _ (by exact_mod_cast hh)
    simp only [out_of_bounds, Bool.or_eq_false_iff, decide_eq_false_iff_not,
      not_lt, not_le]
    exact ⟨⟨⟨hxm0, hxm1⟩, hym0⟩, hym1⟩
  · intro hout
    simp [check_boundary_collision, hout]

/-- Witness for `c6_boundary_death_or_wrap`: a 20×20 grid, head `(19,10)`
stepping right to `(20,10)` — wrap maps it to `(0,10)` with no death,
no-wrap kills with one `WallCollision`. -/
theorem c6_boundary_death_or_wrap_witness :
    check_boundary_collision true ⟨19 + 1, 10 + 0⟩ 20 20 true = [] ∧
    handle_teleporter_wrapping ⟨19 + 1, 10 + 0⟩ 20 20 =
      ⟨(19 + 1) % (20 : Int), (10 + 0) % (20 : Int)⟩ ∧
    check_boundary_collision true ⟨19 + 1, 10 + 0⟩ 20 20 false =
      [DeathCause.WallCollision] := by
  have h := c6_boundary_death_or_wrap ⟨19, 10⟩ (1, 0) 20 20
    (by norm_num) (by norm_num) (by norm_num) (by norm_num) (by norm_num)
    (by norm_num) (Or.inl rfl)
  exact ⟨h.1, h.2.1, h.2.2.2 (by decide)⟩

/-- C7: handling one growth event of amount `k` raises `length` by exactly
`k` and appends exactly `k` new tail segments, each at the position the
last segment held, so the creature's total segment count (head's segment
plus body segments) again equals `length`. -/
theorem c7_growth_preserves_segment_count (st : SnakeChain) (k : Nat)
    (hinv : 1 + st.body.length = st.length) :
    (grow_snake st k).length = st.length + k ∧
    1 + (grow_snake st k).body.length = (grow_snake st k).length ∧
    (grow_snake st k).body = st.body ++ (List.range' st.length k).map
      (fun i => (i, find_last_segment_position st.body st.length)) ∧
    ∀ s ∈ List.drop st.body.length (grow_snake st k).body,
      s.2 = find_last_segment_position st.body st.length := by
  refine ⟨rfl, ?_, rfl, ?_⟩
  · simp only [grow_snake, List.length_append, List.length_map,
      List.length_range']
    omega
  · intro s hs
    rw [show (grow_snake st k).body = st.body ++ (List.range' st.length k).map
        (fun i => (i, find_last_segment_position st.body st.length)) from rfl,
      List.drop_left] at hs
    obtain ⟨i, -, rfl⟩ := List.mem_map.mp hs
    rfl

/-- Witness for `c7_growth_preserves_segment_count`: a length-3 creature
(2 body segments) growing by 1. -/
theorem c7_growth_preserves_segment_count_witness :
    (grow_snake ⟨3, [(1, ⟨9, 10⟩), (2, ⟨8, 10⟩)]⟩ 1).length = 3 + 1 ∧
    1 + (grow_snake ⟨3, [(1, ⟨9, 10⟩), (2, ⟨8, 10⟩)]⟩ 1).body.length =
      (grow_snake ⟨3, [(1, ⟨9, 10⟩), (2, ⟨8, 10⟩)]⟩ 1).length := by
  have h := c7_growth_preserves_segment_count
    ⟨3, [(1, ⟨9, 10⟩), (2, ⟨8, 10⟩)]⟩ 1 (by decide)
  exact ⟨h.1, h.2.1⟩

/-- A best-score slot update never lowers any slot. -/
theorem bump_slot_getD_le (scores : List Nat) (idx s i : Nat) :
    scores.getD i 0 ≤ (bump_slot scores idx s).getD i 0 := by
  unfold bump_slot
  split
  · rw [List.getD_eq_getElem?_getD, List.getD_eq_getElem?_getD,
      List.getElem?_set]
    by_cases hij : idx = i
    · subst hij
      simp only [if_pos rfl]
      by_cases hlen : idx < scores.length
      · rw [if_pos hlen]
        have : scores[idx]? = some (scores.getD idx 0) := by
          rw [List.getD_eq_getElem?_getD, List.getElem?_eq_getElem hlen]
          rfl
        rw [this]
        exact le_max_left _ _
      · rw [if_neg hlen, List.getElem?_eq_none (by omega)]
        exact le_refl _
    · rw [if_neg hij]
  · exact le_refl _

set_option maxRecDepth 8000 in
/-- No single state-transition event lowers a best-score slot or the
max-unlocked level. -/
theorem handle_progression_mono (p : GameProgression)
    (e : StateTransitionEvent) :
    (∀ i, p.level_scores.getD i 0 ≤
      (handle_progression p e).level_scores.getD i 0) ∧
    p.max_unlocked_level ≤ (handle_progression p e).max_unlocked_level := by
  cases e <;> first
    | exact ⟨fun i => le_refl _, le_refl _⟩
    | exact ⟨fun i => bump_slot_getD_le _ _ _ i, le_refl _⟩
    | exact ⟨fun i => bump_slot_getD_le _ _ _ i, le_max_left _ _⟩

/-- Folding events keeps slots and max-unlocked monotone. -/
theorem foldl_progression_mono (events : List StateTransitionEvent) :
    ∀ p : GameProgression,
      (∀ i, p.level_scores.getD i 0 ≤
        (events.foldl handle_progression p).level_scores.getD i 0) ∧
      p.max_unlocked_level ≤
        (events.foldl handle_progression p).max_unlocked_level := by
  induction events with
  | nil => exact fun p => ⟨fun i => le_refl _, le_refl _⟩
  | cons e rest ih =>
      intro p
      refine ⟨fun i => le_trans ((handle_progression_mono p e).1 i)
        ((ih (handle_progression p e)).1 i),
        le_trans (handle_progression_mono p e).2
          (ih (handle_progression p e)).2⟩

/-- C8: over any sequence of state-machine events every per-level
best-score slot and the max-unlocked level are monotonically
non-decreasing; `GameOver`/`LevelComplete` write the slot via `max` with
the stored value (never overwriting with a lower score), and
`LevelComplete` raises the max-unlocked level to `level+1` only when that
is higher. -/
theorem c8_progression_running_maximum (p : GameProgression)
    (events : List StateTransitionEvent) :
    (∀ i, p.level_scores.getD i 0 ≤
      (events.foldl handle_progression p).level_scores.getD i 0) ∧
    p.max_unlocked_level ≤
      (events.foldl handle_progression p).max_unlocked_level ∧
    (∀ s, (handle_progression p (StateTransitionEvent.GameOver s)).level_scores =
      bump_slot p.level_scores (wrapping_pred_u32 p.current_level) s) ∧
    (∀ s l,
      (handle_progression p (StateTransitionEvent.LevelComplete s l)).level_scores =
        bump_slot p.level_scores (wrapping_pred_u32 l) s ∧
      (handle_progression p
          (StateTransitionEvent.LevelComplete s l)).max_unlocked_level =
        max p.max_unlocked_level (succ_u32 l)) ∧
    (∀ (scores : List Nat) (idx s : Nat), idx < 10 → idx < scores.length →
      (bump_slot scores idx s).getD idx 0 = max (scores.getD idx 0) s) := by
  refine ⟨(foldl_progression_mono events p).1, (foldl_progression_mono events p).2,
    fun s => rfl, fun s l => ⟨rfl, rfl⟩, ?_⟩
  intro scores idx s h10 hlen
  unfold bump_slot
  rw [if_pos h10, List.getD_eq_getElem?_getD, List.getElem?_set, if_pos rfl,
    if_pos hlen]
  rfl

/-- Witness for `c8_progression_running_maximum`: a stored score of 3 is
not overwritten by a lower final score of 1, and `LevelComplete` on a
fresh progression does not lower anything. -/
theorem c8_progression_running_maximum_witness :
    (bump_slot [3, 0, 0, 0, 0, 0, 0, 0, 0, 0] 0 1).getD 0 0 = max 3 1 ∧
    ({ current_level := 1, max_unlocked_level := 1, selected_character := 1,
       is_new_game := true, total_score := 0,
       level_scores := [0, 0, 0, 0, 0, 0, 0, 0, 0, 0] } :
        GameProgression).max_unlocked_level ≤
      ([StateTransitionEvent.LevelComplete 50 1].foldl handle_progression
        { current_level := 1, max_unlocked_level := 1, selected_character := 1,
          is_new_game := true, total_score := 0,
          level_scores := [0, 0, 0, 0, 0, 0, 0, 0, 0, 0] }).max_unlocked_level := by
  have h := c8_progression_running_maximum
    { current_level := 1, max_unlocked_level := 1, selected_character := 1,
      is_new_game := true, total_score := 0,
      level_scores := [0, 0, 0, 0, 0, 0, 0, 0, 0, 0] }
    [StateTransitionEvent.LevelComplete 50 1]
  exact ⟨h.2.2.2.2 [3, 0, 0, 0, 0, 0, 0, 0, 0, 0] 0 1 (by norm_num)
    (by norm_num), h.2.1⟩

/-- C9 counterexample: with a fresh validation state
(`last_direction = None`, the `Default` value) and the creature moving
right, the exact-reverse input `(-1,0)` passes validation (`None`
validates as `true`), is stored in the buffer, and on consumption becomes
the creature's direction — the claim that a reversal of the creature's
current direction is never stored fails. -/
theorem c9_initial_reversal_is_buffered :
    (handle_gameplay_input (-1, 0) ⟨none, 0, 0, false⟩ ⟨[], 3⟩).2.direction_buffer
      = [(-1, 0)] ∧
    (consume_buffered_input
        ((handle_gameplay_input (-1, 0) ⟨none, 0, 0, false⟩ ⟨[], 3⟩).2)
        (1, 0)).2 = (-1, 0) ∧
    ((-1, 0) : Int × Int) = get_opposite_direction (1, 0) := by
  have hbuf : (handle_gameplay_input (-1, 0) ⟨none, 0, 0, false⟩ ⟨[], 3⟩).2
      = ⟨[(-1, 0)], 3⟩ := by
    unfold handle_gameplay_input
    norm_num [add_direction_to_buffer]
  refine ⟨by rw [hbuf], by rw [hbuf]; rfl, by decide⟩

/-- C9 (amended): a direction input that is the exact reverse of the
*last recorded input direction* (`input_validation.last_direction`) is
rejected at buffering time — nothing is stored and the validation state
is unchanged; only when no input direction has been recorded yet does a
reversal of the creature's current direction slip through. -/
theorem c9_reversal_of_last_recorded_rejected (d l : Int × Int)
    (v : InputValidation) (b : InputBuffer)
    (hlast : v.last_direction = some l)
    (hd : d = get_opposite_direction l) :
    handle_gameplay_input d v b = (v, b) := by
  unfold handle_gameplay_input
  have hval : is_valid_direction_change l d = false := by
    simp [is_valid_direction_change, hd]
  split
  · rw [hlast]
    simp [hval]
  · rfl

/-- Witness for `c9_reversal_of_last_recorded_rejected`: with `(1,0)`
recorded, the reverse input `(-1,0)` leaves validation and buffer
untouched. -/
theorem c9_reversal_of_last_recorded_rejected_witness :
    handle_gameplay_input (-1, 0) ⟨some (1, 0), 0, 0, false⟩ ⟨[], 3⟩ =
      (⟨some (1, 0), 0, 0, false⟩, ⟨[], 3⟩) :=
  c9_reversal_of_last_recorded_rejected (-1, 0) (1, 0) _ _ rfl rfl

/-- C10: once `is_alive` is false, a movement frame leaves the creature's
state untouched and the food, wall, self and boundary collision systems
process nothing: no food is removed, no growth, score or death event is
produced. -/
theorem c10_dead_creature_is_inert (dt : ℚ) (st : SnakeState)
    (head : GridPosition) (level cid : Nat) (foods : List FoodEnt)
    (ability : CharacterAbility) (inv : Bool) (walls : List WallEnt)
    (segs : List (Nat × GridPosition)) (w h : Nat) (wrap : Bool)
    (hdead : st.is_alive = false) :
    move_snake dt st = st ∧
    check_food_collision st.is_alive head level cid foods = ⟨foods, [], 0⟩ ∧
    check_wall_collision st.is_alive head ability inv walls = ⟨walls, []⟩ ∧
    check_self_collision st.is_alive head segs = none ∧
    self_collision_deaths st.is_alive head segs = [] ∧
    check_boundary_collision st.is_alive head w h wrap = [] := by
  refine ⟨?_, ?_, ?_, ?_, ?_, ?_⟩ <;>
    simp [move_snake, check_food_collision, check_wall_collision,
      check_self_collision, self_collision_deaths, check_boundary_collision,
      hdead]

/-- Witness for `c10_dead_creature_is_inert` on a concrete dead state. -/
theorem c10_dead_creature_is_inert_witness :
    move_snake 1
      { direction := (1, 0), speed := 1, move_timer := 0, length := 3,
        is_alive := false, character_id := 1, head := ⟨10, 10⟩,
        segments := [⟨9, 10⟩, ⟨8, 10⟩], wrap_active := false,
        grid_w := 20, grid_h := 20 } =
      { direction := (1, 0), speed := 1, move_timer := 0, length := 3,
        is_alive := false, character_id := 1, head := ⟨10, 10⟩,
        segments := [⟨9, 10⟩, ⟨8, 10⟩], wrap_active := false,
        grid_w := 20, grid_h := 20 } ∧
    check_food_collision false ⟨10, 10⟩ 1 1 [⟨⟨10, 10⟩, FoodType.Normal⟩] =
      ⟨[⟨⟨10, 10⟩, FoodType.Normal⟩], [], 0⟩ := by
  have h := c10_dead_creature_is_inert 1
    { direction := (1, 0), speed := 1, move_timer := 0, length := 3,
      is_alive := false, character_id := 1, head := ⟨10, 10⟩,
      segments := [⟨9, 10⟩, ⟨8, 10⟩], wrap_active := false,
      grid_w := 20, grid_h := 20 }
    ⟨10, 10⟩ 1 1 [⟨⟨10, 10⟩, FoodType.Normal⟩] CharacterAbility.NoAbility
    false [] [] 20 20 false rfl
  exact ⟨h.1, h.2.1⟩

end Vypertron
